import Mathlib

/- A shallow embedding of the Spark ETL script (etl.py): the catalog stage
(process_song_data), the log stage (process_log_data), the Python udfs used
for the calendar derivation, and a model of the parquet sink.  JSON integers
are modelled as Int, JSON strings as String, other JSON numbers as exact
rationals.  Spark udf return values are modelled as the Python values the
lambdas compute. -/

namespace Etl

/-- Civil (Gregorian) date from a count of days since 1970-01-01, the
standard era-based conversion used by C library localtime for a zero offset. -/
def civilFromDays (z : Int) : Int × Nat × Nat :=
  let zs := z + 719468
  let era := Int.fdiv zs 146097
  let doe := (zs - era * 146097).toNat
  let yoe := (doe - doe / 1460 + doe / 36524 - doe / 146096) / 365
  let doy := doe - (365 * yoe + yoe / 4 - yoe / 100)
  let mp := (5 * doy + 2) / 153
  let d := doy - (153 * mp + 2) / 5 + 1
  let m := if mp < 10 then mp + 3 else mp - 9
  ((yoe : Int) + era * 400 + (if m ≤ 2 then 1 else 0), m, d)

/-- A Python datetime value: civil fields plus the weekday (0 = Monday),
which Python derives from the same instant. -/
structure PyDateTime where
  year : Int
  month : Nat
  day : Nat
  hour : Nat
  minute : Nat
  second : Nat
  wday : Nat
  deriving DecidableEq

/-- Model of Python datetime.fromtimestamp at a fixed environment offset tz
(seconds east of UTC).  The script performs no timezone normalization, so the
offset is a parameter of the embedding; offset 0 is a UTC environment. -/
def fromtimestamp (tz : Int) (t : Int) : PyDateTime :=
  let loc := t + tz
  let days := Int.fdiv loc 86400
  let sod := (loc - days * 86400).toNat
  let c := civilFromDays days
  { year := c.1, month := c.2.1, day := c.2.2, hour := sod / 3600,
    minute := sod % 3600 / 60, second := sod % 60,
    wday := ((days + 3).emod 7).toNat }

/-- Python calendar.day_name indexed by datetime.weekday (0 = Monday). -/
def dayName : Nat → String
  | 0 => "Monday"
  | 1 => "Tuesday"
  | 2 => "Wednesday"
  | 3 => "Thursday"
  | 4 => "Friday"
  | 5 => "Saturday"
  | _ => "Sunday"

def isLeapYear (y : Int) : Bool :=
  y.emod 4 == 0 && (y.emod 100 != 0 || y.emod 400 == 0)

/-- Days in the months strictly before month m (1-based). -/
def daysBeforeMonth (leap : Bool) (m : Nat) : Nat :=
  let base :=
    match m with
    | 1 => 0 | 2 => 31 | 3 => 59 | 4 => 90 | 5 => 120 | 6 => 151
    | 7 => 181 | 8 => 212 | 9 => 243 | 10 => 273 | 11 => 304 | _ => 334
  if leap && 3 ≤ m then base + 1 else base

def ordinalDay (x : PyDateTime) : Nat :=
  daysBeforeMonth (isLeapYear x.year) x.month + x.day

/-- Weekday of December 31 of year y, used by the ISO week rule. -/
def isoPDec31 (y : Int) : Int :=
  (y + Int.fdiv y 4 - Int.fdiv y 100 + Int.fdiv y 400).emod 7

def weeksInISOYear (y : Int) : Nat :=
  if isoPDec31 y == 4 || isoPDec31 (y - 1) == 3 then 53 else 52

/-- The week component of Python datetime.isocalendar. -/
def isocalendarWeek (x : PyDateTime) : Nat :=
  let w : Int := (x.wday : Int) + 1
  let wk := Int.fdiv ((ordinalDay x : Int) - w + 10) 7
  if wk < 1 then weeksInISOYear (x.year - 1)
  else if wk > (weeksInISOYear x.year : Int) then 1
  else wk.toNat

/-- A value of the timestamp column as the Python udf receives it: a JSON
integer, a JSON string, or null (field missing for that row). -/
inductive PyVal
  | none
  | int (n : Int)
  | str (s : String)
  deriving DecidableEq

/-- The failure modes of the timestamp udfs: TypeError on a missing (null)
field, ValueError on a non-numeric string, surfaced as a task failure. -/
inductive TsError
  | missing
  | nonNumeric
  deriving DecidableEq

def digitsToNat (l : List Char) : Nat :=
  l.foldl (fun a c => a * 10 + (c.toNat - 48)) 0

/-- Acceptance of a string by Python int(): optional surrounding whitespace,
optional sign, then one or more decimal digits. -/
def isIntLiteral (s : String) : Bool :=
  match s.trim.toList with
  | [] => false
  | c :: rest =>
    if c = '-' || c = '+' then !rest.isEmpty && rest.all Char.isDigit
    else (c :: rest).all Char.isDigit

def pyStrToInt (s : String) : Int :=
  match s.trim.toList with
  | [] => 0
  | c :: rest =>
    if c = '-' then -(digitsToNat rest : Int)
    else if c = '+' then (digitsToNat rest : Int)
    else (digitsToNat (c :: rest) : Int)

/-- Python int(x) on the udf argument. -/
def pyInt : PyVal → Except TsError Int
  | PyVal.none => Except.error TsError.missing
  | PyVal.int n => Except.ok n
  | PyVal.str s =>
    if isIntLiteral s then Except.ok (pyStrToInt s) else Except.error TsError.nonNumeric

/-- Python int(n / 1000): true division then truncation toward zero (exact
for every millisecond timestamp of magnitude below 2 to the 42). -/
def pyTruncDiv (n : Int) (d : Int) : Int := n.tdiv d

/-- Line 84: get_timestamp, the lambda str(int(int(x)/1000)). -/
def get_timestamp (x : PyVal) : Except TsError String :=
  (pyInt x).map (fun n => toString (pyTruncDiv n 1000))

/-- Line 88: get_datetime, the lambda datetime.fromtimestamp(int(int(x)/1000)). -/
def get_datetime (tz : Int) (x : PyVal) : Except TsError PyDateTime :=
  (pyInt x).map (fun n => fromtimestamp tz (pyTruncDiv n 1000))

/-- Line 89: the udf named get_week returns the English day name of its
datetime argument. -/
def get_week (x : PyDateTime) : String := dayName x.wday

/-- Line 90: the udf named get_weekday returns the ISO week number of its
datetime argument. -/
def get_weekday (x : PyDateTime) : Nat := isocalendarWeek x

/-- Line 91. -/
def get_hour (x : PyDateTime) : Nat := x.hour

/-- Line 92. -/
def get_day (x : PyDateTime) : Nat := x.day

/-- Line 93. -/
def get_year (x : PyDateTime) : Int := x.year

/-- Line 94. -/
def get_month (x : PyDateTime) : Nat := x.month

/-- A raw catalog (song_data) JSON record, fields used by the script. -/
structure SongRecord where
  num_songs : Int
  artist_id : String
  artist_latitude : Option Rat
  artist_longitude : Option Rat
  artist_location : String
  artist_name : String
  song_id : String
  title : String
  duration : Rat
  year : Int
  deriving DecidableEq

/-- A raw event (log_data) JSON record, fields used by the script; page is
carried along although the script never filters on it. -/
structure LogRecord where
  ts : Int
  userId : String
  firstName : String
  lastName : String
  gender : String
  level : String
  sessionId : Int
  location : String
  userAgent : String
  song : String
  page : String
  deriving DecidableEq

structure SongRow where
  song_id : String
  title : String
  artist_id : String
  year : Int
  duration : Rat
  deriving DecidableEq

structure ArtistRow where
  artist_id : String
  artist_name : String
  artist_location : String
  artist_latitude : Option Rat
  artist_longitude : Option Rat
  deriving DecidableEq

structure UserRow where
  userId : String
  firstName : String
  lastName : String
  gender : String
  level : String
  deriving DecidableEq

def projSong (r : SongRecord) : SongRow :=
  { song_id := r.song_id, title := r.title, artist_id := r.artist_id,
    year := r.year, duration := r.duration }

def projArtist (r : SongRecord) : ArtistRow :=
  { artist_id := r.artist_id, artist_name := r.artist_name,
    artist_location := r.artist_location, artist_latitude := r.artist_latitude,
    artist_longitude := r.artist_longitude }

def projUser (l : LogRecord) : UserRow :=
  { userId := l.userId, firstName := l.firstName, lastName := l.lastName,
    gender := l.gender, level := l.level }

/-- Line 45: projection and distinct.  Spark distinct is modelled as
List.dedup; claims about it are row-set statements, insensitive to order. -/
def songs_table (df : List SongRecord) : List SongRow := (df.map projSong).dedup

/-- Line 51. -/
def artists_table (df : List SongRecord) : List ArtistRow := (df.map projArtist).dedup

/-- Line 78. -/
def users_table (df : List LogRecord) : List UserRow := (df.map projUser).dedup

/-- Line 96: the start_time column value for one event row. -/
def start_time_of (tz : Int) (ts : Int) : PyDateTime := fromtimestamp tz (pyTruncDiv ts 1000)

/-- One row of the time table (lines 96-105).  The week column holds the day
name and the weekday column holds the ISO week number, exactly as lines
99 and 102 compute them. -/
structure TimeRow where
  start_time : PyDateTime
  hour : Nat
  day : Nat
  week : String
  month : Nat
  year : Int
  weekday : Nat
  deriving DecidableEq

def timeRowOf (tz : Int) (ts : Int) : TimeRow :=
  let x := start_time_of tz ts
  { start_time := x, hour := get_hour x, day := get_day x, week := get_week x,
    month := get_month x, year := get_year x, weekday := get_weekday x }

/-- Lines 96-105: one time row per event row, in source order. -/
def time_table (tz : Int) (df : List LogRecord) : List TimeRow :=
  df.map (fun l => timeRowOf tz l.ts)

/-- One row of the songplays projection (line 115). -/
structure FactRow where
  start_time : PyDateTime
  userId : String
  level : String
  song_id : String
  artist_id : String
  sessionId : Int
  location : String
  userAgent : String
  deriving DecidableEq

def mkFactRow (tz : Int) (l : LogRecord) (s : SongRow) : FactRow :=
  { start_time := start_time_of tz l.ts, userId := l.userId, level := l.level,
    song_id := s.song_id, artist_id := s.artist_id, sessionId := l.sessionId,
    location := l.location, userAgent := l.userAgent }

/-- Fact rows produced from one event row by the inner join of line 114
(condition song_df.title == df.song): one output row per matching track row,
none when no track row matches. -/
def factRowsFor (tz : Int) (song_df : List SongRow) (l : LogRecord) : List FactRow :=
  (song_df.filter (fun s => s.title == l.song)).map (mkFactRow tz l)

/-- Lines 114-115: the joined and projected songplays rows. -/
def songplays_rows (tz : Int) (song_df : List SongRow) (logs : List LogRecord) : List FactRow :=
  logs.flatMap (factRowsFor tz song_df)

/-- Spark monotonically_increasing_id on partitioned rows: partition index in
the upper bits, record number within the partition in the lower 33 bits. -/
def mIdsFrom {α : Type} : Nat → List (List α) → List Nat
  | _, [] => []
  | pid, p :: ps => (List.range p.length).map (fun i => pid * 2 ^ 33 + i) ++ mIdsFrom (pid + 1) ps

def monotonically_increasing_id {α : Type} (parts : List (List α)) : List Nat :=
  mIdsFrom 0 parts

/-- Line 116: the songplay_id column computed over the songplays rows under
the engine partitioning of those rows.  The script collects this single
column to the driver and discards the result; no songplay_id column is added
to the table that line 119 writes. -/
def songplay_id_select (parts : List (List FactRow)) : List Nat :=
  monotonically_increasing_id parts

/-- A row of some persisted table. -/
inductive PRow
  | song (r : SongRow)
  | artist (r : ArtistRow)
  | user (r : UserRow)
  | time (r : TimeRow)
  | fact (r : FactRow)
  deriving DecidableEq

/-- The object store: a path holds persisted rows, or nothing. -/
def Store : Type := String → Option (List PRow)

def emptyStore : Store := fun _ => Option.none

inductive WriteMode
  | overwrite
  | append
  deriving DecidableEq

/-- DataFrame.write with a mode and partition columns: the engine refuses a
partition column absent from the table schema; mode overwrite replaces
whatever was at the path, mode append merges with it. -/
def writeParquet (st : Store) (path : String) (cols : List String)
    (partitionCols : List String) (mode : WriteMode) (rows : List PRow) : Option Store :=
  if partitionCols.all (fun c => cols.contains c) then
    Option.some (fun p =>
      if p = path then
        Option.some (match mode with
          | WriteMode.overwrite => rows
          | WriteMode.append => (st path).getD [] ++ rows)
      else st p)
  else Option.none

def songColumns : List String := ["song_id", "title", "artist_id", "year", "duration"]

def artistColumns : List String :=
  ["artist_id", "artist_name", "artist_location", "artist_latitude", "artist_longitude"]

def userColumns : List String := ["userId", "firstName", "lastName", "gender", "level"]

def timeColumns : List String :=
  ["start_time", "hour", "day", "week", "month", "year", "weekday"]

/-- Line 115: the final songplays projection; neither year nor month is among
the projected columns. -/
def factColumns : List String :=
  ["start_time", "userId", "level", "song_id", "artist_id", "sessionId", "location", "userAgent"]

/-- Line 119: the partitionBy argument of the songplays write. -/
def factPartitionCols : List String := ["year", "month"]

def songsPath (out : String) : String := out ++ "songs_table.parquet"

def artistsPath (out : String) : String := out ++ "artists_table.parquet"

def usersPath (out : String) : String := out ++ "users_table.parquet"

def timePath (out : String) : String := out ++ "time_table.parquet"

def songplaysPath (out : String) : String := out ++ "songplays_table.parquet"

def input_data : String := "s3a://udacity-dend/"

def output_data : String := "s3a://u-de-project4/"

/-- Line 111: read the songs table back from the store.  A missing path would
be a read error in Spark; the modelled driver always writes it first. -/
def readSongs (st : Store) (p : String) : List SongRow :=
  ((st p).getD []).filterMap
    (fun r => match r with | PRow.song s => Option.some s | _ => Option.none)

/-- Lines 28-54: the catalog stage. -/
def process_song_data (st : Store) (out : String) (df : List SongRecord) : Option Store :=
  (writeParquet st (songsPath out) songColumns ["year", "artist_id"] WriteMode.overwrite
      ((songs_table df).map PRow.song)).bind
    (fun st1 =>
      writeParquet st1 (artistsPath out) artistColumns [] WriteMode.overwrite
        ((artists_table df).map PRow.artist))

/-- Lines 111-115 as a function of the store at the time of the read. -/
def songplays_table (st : Store) (out : String) (tz : Int) (logs : List LogRecord) : List FactRow :=
  songplays_rows tz (readSongs st (songsPath out)) logs

/-- Lines 57-119: the log stage.  The final write carries partitionBy year
and month although the projected songplays columns include neither. -/
def process_log_data (st : Store) (out : String) (tz : Int) (logs : List LogRecord) : Option Store :=
  (writeParquet st (usersPath out) userColumns [] WriteMode.overwrite
      ((users_table logs).map PRow.user)).bind
    (fun st1 =>
      (writeParquet st1 (timePath out) timeColumns ["year", "month"] WriteMode.overwrite
          ((time_table tz logs).map PRow.time)).bind
        (fun st2 =>
          writeParquet st2 (songplaysPath out) factColumns factPartitionCols WriteMode.overwrite
            ((songplays_table st2 out tz logs).map PRow.fact)))

/-- Lines 122-135: the driver sequences the catalog stage before the log
stage at fixed locations. -/
def mainRun (st : Store) (tz : Int) (songs : List SongRecord) (logs : List LogRecord) : Option Store :=
  (process_song_data st output_data songs).bind
    (fun st1 => process_log_data st1 output_data tz logs)

/-- The catalog record of the example scenario (track T1, title Song A,
publisher P1). -/
def cat1 : SongRecord :=
  { num_songs := 1, artist_id := "P1", artist_latitude := Option.none,
    artist_longitude := Option.none, artist_location := "Metropolis",
    artist_name := "Pub One", song_id := "T1", title := "Song A",
    duration := 210, year := 2000 }

/-- A second catalog record, distinct from cat1 in every field. -/
def cat2 : SongRecord :=
  { num_songs := 1, artist_id := "P2", artist_latitude := Option.some 10,
    artist_longitude := Option.some 20, artist_location := "Gotham",
    artist_name := "Pub Two", song_id := "T2", title := "Song B",
    duration := 180, year := 2010 }

/-- The event record of the example scenario: title Song A at epoch-ms
1000000000000. -/
def ev1 : LogRecord :=
  { ts := 1000000000000, userId := "U1", firstName := "Ann", lastName := "Lee",
    gender := "F", level := "free", sessionId := 1, location := "NYC",
    userAgent := "UA", song := "Song A", page := "NextSong" }

/-- An event record whose title matches no catalog title. -/
def evNoMatch : LogRecord :=
  { ts := 1000000000000, userId := "U2", firstName := "Bob", lastName := "Kim",
    gender := "M", level := "paid", sessionId := 2, location := "LA",
    userAgent := "UA2", song := "No Such Song", page := "NextSong" }

def s1 : SongRow := projSong cat1

/-- The fact row the example scenario produces in a UTC environment. -/
def f1 : FactRow :=
  { start_time :=
      { year := 2001, month := 9, day := 9, hour := 1, minute := 46, second := 40, wday := 6 },
    userId := "U1", level := "free", song_id := "T1", artist_id := "P1",
    sessionId := 1, location := "NYC", userAgent := "UA" }

def pr1 : List PRow := [PRow.song s1]

def pr2 : List PRow := [PRow.user (projUser ev1)]

theorem dedup_toFinset {α : Type} [DecidableEq α] (l : List α) :
    l.dedup.toFinset = l.toFinset := by
  ext a
  simp [List.mem_toFinset, List.mem_dedup]

theorem append_ne_of_ne (out : String) {a b : String} (h : a ≠ b) :
    out ++ a ≠ out ++ b := by
  intro he
  apply h
  apply String.ext
  have hd : out.data ++ a.data = out.data ++ b.data := by
    rw [← String.data_append, ← String.data_append, he]
  exact List.append_cancel_left hd

theorem filterMap_song_map (l : List SongRow) :
    (l.map PRow.song).filterMap
      (fun r => match r with | PRow.song s => Option.some s | _ => Option.none) = l := by
  induction l with
  | nil => rfl
  | cons a t ih => simp [List.filterMap_cons, ih]

/-- The catalog stage evaluated: it always succeeds and writes the two
dimension tables at their two paths. -/
theorem process_song_data_eq (st : Store) (out : String) (df : List SongRecord) :
    process_song_data st out df = Option.some (fun p =>
      if p = artistsPath out then Option.some ((artists_table df).map PRow.artist)
      else if p = songsPath out then Option.some ((songs_table df).map PRow.song)
      else st p) := rfl

/-- Reading the songs table back from the store left by the catalog stage
recovers exactly the songs table of that run. -/
theorem readSongs_after_catalog (st : Store) (out : String) (df : List SongRecord)
    (st1 : Store) (h : process_song_data st out df = Option.some st1) :
    readSongs st1 (songsPath out) = songs_table df := by
  rw [process_song_data_eq] at h
  have hst := Option.some.inj h
  subst hst
  have hneq : songsPath out ≠ artistsPath out := by
    unfold songsPath artistsPath
    exact append_ne_of_ne out (by decide)
  simp only [readSongs]
  rw [if_neg hneq]
  simp only [if_true, Option.getD_some]
  exact filterMap_song_map _

theorem songplays_after_catalog (st : Store) (out : String) (tz : Int)
    (df : List SongRecord) (logs : List LogRecord) (st1 : Store)
    (h : process_song_data st out df = Option.some st1) :
    songplays_table st1 out tz logs = songplays_rows tz (songs_table df) logs := by
  unfold songplays_table
  rw [readSongs_after_catalog st out df st1 h]

theorem dedup_append_toFinset {α β : Type} [DecidableEq β] (f : α → β)
    (df dups : List α) (h : ∀ x ∈ dups, x ∈ df) :
    ((df ++ dups).map f).dedup.toFinset = ((df.map f).dedup).toFinset := by
  rw [dedup_toFinset, dedup_toFinset, List.map_append, List.toFinset_append,
    Finset.union_eq_left]
  intro a ha
  rw [List.mem_toFinset] at ha ⊢
  rcases List.mem_map.mp ha with ⟨x, hx, rfl⟩
  exact List.mem_map.mpr ⟨x, h x hx, rfl⟩

theorem mIdsFrom_le {α : Type} (pid : Nat) (parts : List (List α)) (a : Nat)
    (ha : a ∈ mIdsFrom pid parts) : pid * 2 ^ 33 ≤ a := by
  induction parts generalizing pid with
  | nil => simp [mIdsFrom] at ha
  | cons p ps ih =>
    simp only [mIdsFrom] at ha
    rcases List.mem_append.mp ha with h1 | h2
    · rcases List.mem_map.mp h1 with ⟨i, _hi, rfl⟩
      exact Nat.le_add_right _ _
    · calc pid * 2 ^ 33 ≤ (pid + 1) * 2 ^ 33 := Nat.mul_le_mul_right _ (Nat.le_succ _)
        _ ≤ a := ih (pid + 1) h2

theorem mIdsFrom_pairwise {α : Type} (pid : Nat) (parts : List (List α))
    (h : ∀ p ∈ parts, p.length ≤ 2 ^ 33) :
    (mIdsFrom pid parts).Pairwise (fun a b => a < b) := by
  induction parts generalizing pid with
  | nil => simp [mIdsFrom]
  | cons p ps ih =>
    simp only [mIdsFrom]
    rw [List.pairwise_append]
    refine ⟨?_, ih (pid + 1) (fun q hq => h q (List.mem_cons_of_mem _ hq)), ?_⟩
    · exact (List.pairwise_lt_range _).map _ (fun a b hab => Nat.add_lt_add_left hab _)
    · intro a ha b hb
      rcases List.mem_map.mp ha with ⟨i, hi, rfl⟩
      have hlen : p.length ≤ 2 ^ 33 := h p (List.mem_cons_self _ _)
      have hi2 : i < 2 ^ 33 := lt_of_lt_of_le (List.mem_range.mp hi) hlen
      calc pid * 2 ^ 33 + i < pid * 2 ^ 33 + 2 ^ 33 := Nat.add_lt_add_left hi2 _
        _ = (pid + 1) * 2 ^ 33 := by ring
        _ ≤ b := mIdsFrom_le (pid + 1) ps b hb

theorem mIdsFrom_length {α : Type} (pid : Nat) (parts : List (List α)) :
    (mIdsFrom pid parts).length = parts.flatten.length := by
  induction parts generalizing pid with
  | nil => rfl
  | cons p ps ih =>
    simp [mIdsFrom, List.flatten_cons, ih]

/-- Claim C1, refuted by the code (the spec states the intent, the udf bodies
of lines 89 and 90 are swapped relative to their names): at epoch-ms
1000000000000 (2001-09-09T01:46:40 UTC, a Sunday of ISO week 36) the script
stores the English day name in the week column and the ISO week number in the
weekday column, the reverse of the claimed assignment.  The last two
conjuncts evaluate the spec-side derivations: the day name of that instant is
Sunday and its ISO week number is 36. -/
theorem week_weekday_columns_swapped :
    (timeRowOf 0 1000000000000).week = "Sunday" ∧
      (timeRowOf 0 1000000000000).weekday = 36 ∧
      dayName (start_time_of 0 1000000000000).wday = "Sunday" ∧
      isocalendarWeek (start_time_of 0 1000000000000) = 36 := by
  decide

/-- Claim C2, refuted by the code (the spec and the comments of the script
state the intent): the songplays projection of line 115 contains neither a
year nor a month column, yet the write of line 119 partitions by year and
month, so the engine rejects the fact-table write and the log stage of every
run fails instead of writing the claimed table. -/
theorem songplays_write_rejects_partition_columns :
    "year" ∉ factColumns ∧ "month" ∉ factColumns ∧
      ∀ (st : Store) (out : String) (tz : Int) (logs : List LogRecord),
        process_log_data st out tz logs = Option.none := by
  refine ⟨by decide, by decide, ?_⟩
  intro st out tz logs
  simp [process_log_data, writeParquet, factColumns, factPartitionCols, userColumns, timeColumns]

/-- Claim C3: for a catalog holding the track T1 titled Song A and a log
holding exactly one event titled Song A at epoch-ms 1000000000000, running
the catalog stage and then assembling the songplays rows from the persisted
track table, in a UTC execution environment, yields exactly one fact row; its
instant is 2001-09-09T01:46:40 and its track identifier is T1. -/
theorem example_scenario_single_fact_row :
    (process_song_data emptyStore output_data [cat1]).map
        (fun st1 => songplays_table st1 output_data 0 [ev1]) = Option.some [f1] ∧
      f1.start_time =
        { year := 2001, month := 9, day := 9, hour := 1, minute := 46, second := 40, wday := 6 } ∧
      f1.song_id = "T1" := by
  decide

/-- Claim C4: an event row whose song title matches no row of the track table
contributes no fact row (the inner join of line 114 drops it; the join is a
total function, so no error is raised), and an event row whose title matches
exactly one track row contributes exactly one fact row. -/
theorem join_exclusivity (tz : Int) (song_df : List SongRow) (l : LogRecord) :
    ((∀ s ∈ song_df, s.title ≠ l.song) → factRowsFor tz song_df l = []) ∧
      (song_df.countP (fun s => s.title == l.song) = 1 →
        (factRowsFor tz song_df l).length = 1) := by
  constructor
  · intro h
    unfold factRowsFor
    have hfil : song_df.filter (fun s => s.title == l.song) = [] := by
      rw [List.filter_eq_nil_iff]
      intro a ha
      simpa using h a ha
    rw [hfil]
    rfl
  · intro h
    unfold factRowsFor
    rw [List.length_map, ← List.countP_eq_length_filter]
    exact h

theorem join_exclusivity_witness :
    ((∀ s ∈ [s1], s.title ≠ evNoMatch.song) ∧
        [s1].countP (fun s => s.title == ev1.song) = 1) ∧
      (factRowsFor 0 [s1] evNoMatch = [] ∧ (factRowsFor 0 [s1] ev1).length = 1) :=
  ⟨⟨by decide, by decide⟩,
    ⟨(join_exclusivity 0 [s1] evNoMatch).1 (by decide),
      (join_exclusivity 0 [s1] ev1).2 (by decide)⟩⟩

/-- Claim C5: the catalog transformer deduplicates by exact row equality, so
appending already-present rows to its input leaves the track and publisher
tables unchanged as row sets, and applying the deduplication again to either
output changes nothing (idempotence; a second run on the same input is the
same function application and returns the same tables). -/
theorem dedup_idempotence (df dups : List SongRecord) (h : ∀ x ∈ dups, x ∈ df) :
    (songs_table (df ++ dups)).toFinset = (songs_table df).toFinset ∧
      (artists_table (df ++ dups)).toFinset = (artists_table df).toFinset ∧
      (songs_table df).dedup = songs_table df ∧
      (artists_table df).dedup = artists_table df :=
  ⟨dedup_append_toFinset projSong df dups h,
    dedup_append_toFinset projArtist df dups h,
    List.dedup_idem, List.dedup_idem⟩

theorem dedup_idempotence_witness :
    (∀ x ∈ [cat1], x ∈ [cat1, cat2]) ∧
      ((songs_table ([cat1, cat2] ++ [cat1])).toFinset = (songs_table [cat1, cat2]).toFinset ∧
        (artists_table ([cat1, cat2] ++ [cat1])).toFinset = (artists_table [cat1, cat2]).toFinset ∧
        (songs_table [cat1, cat2]).dedup = songs_table [cat1, cat2] ∧
        (artists_table [cat1, cat2]).dedup = artists_table [cat1, cat2]) :=
  ⟨by decide, dedup_idempotence [cat1, cat2] [cat1] (by decide)⟩

/-- Claim C6, corrected: the timestamp udf of line 88 fails exactly when the
field is missing (None, a TypeError) or a non-numeric string (a ValueError);
a negative numeric timestamp does not fail, contrary to the claim, and every
numeric timestamp, negative ones included, yields the instant obtained by
dividing the millisecond value by 1000 and truncating toward zero. -/
theorem timestamp_error_amended (tz : Int) (x : PyVal) :
    ((∃ e, get_datetime tz x = Except.error e) ↔
        (x = PyVal.none ∨ ∃ s, x = PyVal.str s ∧ isIntLiteral s = false)) ∧
      ∀ n, x = PyVal.int n →
        get_datetime tz x = Except.ok (fromtimestamp tz (pyTruncDiv n 1000)) := by
  constructor
  · cases x with
    | none => simp [get_datetime, pyInt, Except.map]
    | int n => simp [get_datetime, pyInt, Except.map]
    | str s =>
      by_cases hs : isIntLiteral s
      · simp [get_datetime, pyInt, hs, Except.map]
      · simp [get_datetime, pyInt, hs, Except.map]
  · intro n hx
    subst hx
    rfl

theorem timestamp_error_amended_witness :
    get_datetime 0 (PyVal.int 1000000000000) = Except.ok (fromtimestamp 0 1000000000) :=
  (timestamp_error_amended 0 (PyVal.int 1000000000000)).2 1000000000000 rfl

/-- Claim C6, counterexample to the statement as written: the negative
timestamp -5000 ms does not fail; the derivation succeeds and returns the
instant five seconds before the epoch (1969-12-31T23:59:55 in a UTC
environment), so failure is not equivalent to missing, non-numeric, or
negative. -/
theorem timestamp_negative_succeeds :
    get_datetime 0 (PyVal.int (-5000)) = Except.ok
      { year := 1969, month := 12, day := 31, hour := 23, minute := 59, second := 55, wday := 2 } := rfl

/-- Claim C7: the songplay_id column that line 116 computes over the
songplays rows is strictly increasing across the rows of the run (for any
engine partitioning whose partitions respect the 33-bit record-number bound),
one identifier per fact row, and no songplay_id column is among the persisted
fact-table columns. -/
theorem songplay_id_strictly_increasing (tz : Int) (song_df : List SongRow)
    (logs : List LogRecord) (parts : List (List FactRow))
    (hparts : parts.flatten = songplays_rows tz song_df logs)
    (hsize : ∀ p ∈ parts, p.length ≤ 2 ^ 33) :
    (songplay_id_select parts).Pairwise (fun a b => a < b) ∧
      (songplay_id_select parts).length = (songplays_rows tz song_df logs).length ∧
      "songplay_id" ∉ factColumns := by
  refine ⟨mIdsFrom_pairwise 0 parts hsize, ?_, by decide⟩
  unfold songplay_id_select monotonically_increasing_id
  rw [mIdsFrom_length, hparts]

theorem songplay_id_strictly_increasing_witness :
    (([[f1], [f1]] : List (List FactRow)).flatten = songplays_rows 0 [s1] [ev1, ev1] ∧
        ∀ p ∈ ([[f1], [f1]] : List (List FactRow)), p.length ≤ 2 ^ 33) ∧
      ((songplay_id_select [[f1], [f1]]).Pairwise (fun a b => a < b) ∧
        (songplay_id_select [[f1], [f1]]).length = (songplays_rows 0 [s1] [ev1, ev1]).length ∧
        "songplay_id" ∉ factColumns) :=
  ⟨⟨by decide, by decide⟩,
    songplay_id_strictly_increasing 0 [s1] [ev1, ev1] [[f1], [f1]] (by decide) (by decide)⟩

/-- Claim C8: every fact row assembled from the track table that the catalog
stage of the same run persisted carries a track identifier occurring in that
track table and a publisher identifier occurring in the publisher table of
the same run. -/
theorem join_referential_integrity (st : Store) (out : String) (tz : Int)
    (df : List SongRecord) (logs : List LogRecord) (f : FactRow)
    (hf : f ∈ ((process_song_data st out df).map
        (fun st1 => songplays_table st1 out tz logs)).getD []) :
    f.song_id ∈ (songs_table df).map SongRow.song_id ∧
      f.artist_id ∈ (artists_table df).map ArtistRow.artist_id := by
  rw [process_song_data_eq, Option.map_some', Option.getD_some] at hf
  rw [songplays_after_catalog st out tz df logs _ (process_song_data_eq st out df)] at hf
  rcases List.mem_flatMap.mp hf with ⟨l, _hl, hfl⟩
  unfold factRowsFor at hfl
  rcases List.mem_map.mp hfl with ⟨s, hs, rfl⟩
  have hsmem : s ∈ songs_table df := List.mem_of_mem_filter hs
  constructor
  · exact List.mem_map.mpr ⟨s, hsmem, rfl⟩
  · have hproj : s ∈ df.map projSong := by
      unfold songs_table at hsmem
      exact List.mem_dedup.mp hsmem
    rcases List.mem_map.mp hproj with ⟨r, hr, rfl⟩
    refine List.mem_map.mpr ⟨projArtist r, ?_, rfl⟩
    unfold artists_table
    exact List.mem_dedup.mpr (List.mem_map.mpr ⟨r, hr, rfl⟩)

theorem join_referential_integrity_witness :
    (f1 ∈ ((process_song_data emptyStore output_data [cat1]).map
        (fun st1 => songplays_table st1 output_data 0 [ev1])).getD []) ∧
      (f1.song_id ∈ (songs_table [cat1]).map SongRow.song_id ∧
        f1.artist_id ∈ (artists_table [cat1]).map ArtistRow.artist_id) :=
  ⟨by decide, join_referential_integrity emptyStore output_data 0 [cat1] [ev1] f1 (by decide)⟩

/-- Claim C9: two successive sink writes in overwrite mode at the same
destination path leave that path holding exactly the rows of the second
write; nothing of the first write remains. -/
theorem sink_overwrite_replaces (st : Store) (path : String)
    (cols partitionCols : List String) (t1 t2 : List PRow)
    (hp : partitionCols.all (fun c => cols.contains c) = true) :
    ((writeParquet st path cols partitionCols WriteMode.overwrite t1).bind
        (fun st1 => writeParquet st1 path cols partitionCols WriteMode.overwrite t2)).map
      (fun st2 => st2 path) = Option.some (Option.some t2) := by
  unfold writeParquet
  rw [if_pos hp]
  simp only [Option.some_bind]
  rw [if_pos hp]
  simp

theorem sink_overwrite_replaces_witness :
    (([] : List String).all (fun c => songColumns.contains c) = true) ∧
      ((writeParquet emptyStore (songsPath output_data) songColumns [] WriteMode.overwrite pr1).bind
          (fun st1 =>
            writeParquet st1 (songsPath output_data) songColumns [] WriteMode.overwrite pr2)).map
        (fun st2 => st2 (songsPath output_data)) = Option.some (Option.some pr2) :=
  ⟨by decide,
    sink_overwrite_replaces emptyStore (songsPath output_data) songColumns [] pr1 pr2 (by decide)⟩

/-- Claim C10: an event row whose song title matches k track rows contributes
exactly k fact rows through the inner join of line 114; multiple matches
multiply the fact rows instead of raising an error or selecting one match. -/
theorem join_multiplicity (tz : Int) (song_df : List SongRow) (l : LogRecord) :
    (factRowsFor tz song_df l).length = song_df.countP (fun s => s.title == l.song) := by
  unfold factRowsFor
  rw [List.length_map, List.countP_eq_length_filter]

end Etl
